import Mathlib

/-!
Verification of the tienda-backend product-catalog service.

The development shallow-embeds the three source files of the repository:
`auth.py` (credential check, JWT issuance and verification), `backend/models.py`
(the pydantic data model) and `server.py` (the FastAPI route handlers over a
MongoDB products collection).

Modelling conventions:
* Timestamps and durations are integers (seconds).  `datetime.utcnow()` becomes
  an explicit `now : Int` parameter threaded through every operation.
* The MongoDB products collection is a list of documents; a document is an
  association list from string keys to `Value`s, matching the dictionaries the
  handlers read and write.  `find_one`, `update_one` (with a `$set` document)
  and `delete_one` act on the first document whose `id` field matches, in the
  natural (insertion) order that `find({})` enumerates.
* Python floats carry no arithmetic in this program (they are only stored,
  compared and returned), so `price` and `rating` are embedded as rationals.
* The JWT library (`import jwt`) is a third-party collaborator whose sources
  are not part of the repository; its encode/decode interface is modelled from
  the specification with an idealized message authentication code: a signature
  is the signed payload paired with the signing key, and verification checks
  that the signature matches the payload and the current key.
-/

namespace Tienda

/-- HTTP-level error, as raised by `HTTPException(status_code=..., detail=...)`. -/
structure HErr where
  status : Nat
  detail : String
deriving DecidableEq, Repr

/-- Process configuration loaded in `auth.py` from the environment:
`ADMIN_USERNAME`, `ADMIN_PASSWORD`, `JWT_SECRET_KEY`. -/
structure AdminConfig where
  adminUsername : String
  adminPassword : String
  secretKey : String
deriving DecidableEq, Repr

/-- JWT payload as built by `create_access_token`: the claims dictionary
`{"sub": username, "exp": expire}`.  `sub` is optional because `verify_token`
explicitly handles its absence. -/
structure Payload where
  sub : Option String
  exp : Int
deriving DecidableEq, Repr

/-- A structurally well-formed JWT: a payload together with its signature.
The signature is modelled as an ideal MAC: the exact payload that was signed
paired with the key it was signed with, so signature verification succeeds
iff the token was produced, unmodified, under the current secret. -/
structure Token where
  payload : Payload
  sig : Payload × String
deriving DecidableEq, Repr

/-- A bearer-token string presented by a client: either it parses as a JWT or
it is garbage that the decoder rejects as malformed. -/
inductive TokenString where
  | jwt (t : Token)
  | malformed
deriving DecidableEq, Repr

/-- Source: `auth.py`, `verify_admin_credentials`: exact string equality of
both the username and the password against the configured admin identity. -/
def verify_admin_credentials (cfg : AdminConfig) (username password : String) : Bool :=
  username == cfg.adminUsername && password == cfg.adminPassword

/-- Source: `auth.py`, `create_access_token`: copies the claims (here the
subject), sets `exp = now + expires_delta` (default 24 hours) and signs the
payload with the configured secret. -/
def create_access_token (sub : String) (now : Int) (expires_delta : Option Int)
    (secret : String) : Token :=
  let expire : Int := now + expires_delta.getD (24 * 3600)
  let payload : Payload := { sub := some sub, exp := expire }
  { payload := payload, sig := (payload, secret) }

/-- Outcome of `jwt.decode`: the decoded claims, an `ExpiredSignatureError`,
or a generic `JWTError`. -/
inductive DecodeResult where
  | ok (p : Payload)
  | expired
  | invalid
deriving DecidableEq, Repr

/-- Modelled from the spec: the body of `jwt.decode(token, SECRET_KEY,
algorithms=[ALGORITHM])` from the external JWT library, which is not part of
this repository.  Per the specification, decoding fails as malformed or on a
signature that does not verify against the current secret, and otherwise
fails as expired exactly when the current time is at or past the embedded
expiration.  The signature check precedes the expiration check, matching the
library order (claims are validated only after the signature verifies). -/
def jwtDecode (ts : TokenString) (secret : String) (now : Int) : DecodeResult :=
  match ts with
  | .malformed => .invalid
  | .jwt t =>
    if t.sig = (t.payload, secret) then
      if t.payload.exp ≤ now then .expired else .ok t.payload
    else .invalid

/-- Error raised by `verify_token` on a missing or null subject claim. -/
def tokenInvalidErr : HErr := { status := 403, detail := "Token inválido" }

/-- Error raised by `verify_token` on an expired token. -/
def tokenExpiredErr : HErr := { status := 403, detail := "Token expirado" }

/-- Source: `auth.py`, `verify_token`: decodes the bearer token; on success
returns `payload.get("sub")` unless it is absent (403 Token inválido); an
`ExpiredSignatureError` becomes 403 Token expirado and any other `JWTError`
becomes 403 Token inválido. -/
def verify_token (ts : TokenString) (secret : String) (now : Int) :
    Except HErr String :=
  match jwtDecode ts secret now with
  | .ok p =>
    match p.sub with
    | some username => .ok username
    | none => .error tokenInvalidErr
  | .expired => .error tokenExpiredErr
  | .invalid => .error tokenInvalidErr

/-- Error raised by `HTTPBearer` when the `Authorization` header is absent. -/
def notAuthenticatedErr : HErr := { status := 403, detail := "Not authenticated" }

/-- The auth gate guarding protected routes: FastAPI `HTTPBearer` extraction
(403 Not authenticated when no bearer credentials are presented) followed by
`verify_token`.  This is what `Depends(verify_token)` evaluates before any
protected handler body runs. -/
def authenticate (cred : Option TokenString) (secret : String) (now : Int) :
    Except HErr String :=
  match cred with
  | none => .error notAuthenticatedErr
  | some ts => verify_token ts secret now

/-- A field value in a MongoDB product document: the JSON-level values the
handlers store (`null` arises from pydantic `None`, timestamps are stored via
`isoformat()` and embedded here as integer instants). -/
inductive Value where
  | vNull
  | vStr (s : String)
  | vNum (q : ℚ)
  | vInt (n : Int)
  | vBool (b : Bool)
  | vStrList (l : List String)
  | vTime (t : Int)
deriving DecidableEq, Repr

/-- A MongoDB document: an association list from field names to values. -/
def Doc : Type := List (String × Value)

instance : DecidableEq Doc := by
  unfold Doc
  infer_instance

/-- First value stored under a key, if any. -/
def getKey : Doc → String → Option Value
  | [], _ => none
  | (k, v) :: rest, key => if k = key then some v else getKey rest key

/-- MongoDB `$set` of a single field: replaces the value under the key, or
appends the field if the document does not have it. -/
def setKey : Doc → String → Value → Doc
  | [], key, v => [(key, v)]
  | (k, w) :: rest, key, v =>
    if k = key then (k, v) :: rest else (k, w) :: setKey rest key v

/-- MongoDB `$set` of an update document: sets each listed field in turn. -/
def applySet (d : Doc) (upd : List (String × Value)) : Doc :=
  upd.foldl (fun acc kv => setKey acc kv.1 kv.2) d

/-- Source: `backend/models.py`, `class Product`: the full product entity.
`id`, `createdAt` and `updatedAt` have server-side default factories. -/
structure Product where
  id : String
  name : String
  category : String
  price : ℚ
  image : String
  description : String
  specs : List String
  rating : ℚ
  reviews : Int
  featured : Bool
  affiliateLink : String
  createdAt : Int
  updatedAt : Int
deriving DecidableEq, Repr

/-- Source: `backend/models.py`, `class ProductCreate`: the client-supplied
creation fields after pydantic validation (defaults already applied). -/
structure ProductCreate where
  name : String
  category : String
  price : ℚ
  image : String
  description : String
  specs : List String
  rating : ℚ
  reviews : Int
  featured : Bool
  affiliateLink : String
deriving DecidableEq, Repr

/-- A creation request body before validation: `specs`, `rating`, `reviews`
and `featured` may be omitted by the client (`none`); there is no `id`,
`createdAt` or `updatedAt` field the client could supply. -/
structure ProductCreateInput where
  name : String
  category : String
  price : ℚ
  image : String
  description : String
  specs : Option (List String)
  rating : Option ℚ
  reviews : Option Int
  featured : Option Bool
  affiliateLink : String
deriving DecidableEq, Repr

/-- Pydantic validation of a `ProductCreate` body: fills the defaults
`specs=[]`, `rating=4.5`, `reviews=0`, `featured=False` for omitted fields. -/
def parseProductCreate (inp : ProductCreateInput) : ProductCreate :=
  { name := inp.name
    category := inp.category
    price := inp.price
    image := inp.image
    description := inp.description
    specs := inp.specs.getD []
    rating := inp.rating.getD 4.5
    reviews := inp.reviews.getD 0
    featured := inp.featured.getD false
    affiliateLink := inp.affiliateLink }

/-- Source: `backend/models.py`, `class ProductUpdate`: every field is
optional.  Each field is `none` when the client omitted it, `some none` when
the client supplied an explicit JSON `null`, and `some (some v)` when the
client supplied a value; this mirrors a pydantic model where a field can be
unset, set to `None`, or set to a value. -/
structure ProductUpdate where
  name : Option (Option String) := none
  category : Option (Option String) := none
  price : Option (Option ℚ) := none
  image : Option (Option String) := none
  description : Option (Option String) := none
  specs : Option (Option (List String)) := none
  rating : Option (Option ℚ) := none
  reviews : Option (Option Int) := none
  featured : Option (Option Bool) := none
  affiliateLink : Option (Option String) := none
deriving DecidableEq, Repr

/-- One field of `model_dump(exclude_unset=True)`: an unset field is absent
from the dump; a field set to `None` dumps as `null`; a set value dumps as
its encoding. -/
def dumpField {α : Type} (key : String) (enc : α → Value) :
    Option (Option α) → List (String × Value)
  | none => []
  | some none => [(key, Value.vNull)]
  | some (some v) => [(key, enc v)]

/-- Source: `server.py` line 128, `product_update.model_dump(exclude_unset=True)`:
the update document containing exactly the fields the client set. -/
def ProductUpdate.dump (u : ProductUpdate) : List (String × Value) :=
  dumpField "name" Value.vStr u.name ++
  dumpField "category" Value.vStr u.category ++
  dumpField "price" Value.vNum u.price ++
  dumpField "image" Value.vStr u.image ++
  dumpField "description" Value.vStr u.description ++
  dumpField "specs" Value.vStrList u.specs ++
  dumpField "rating" Value.vNum u.rating ++
  dumpField "reviews" Value.vInt u.reviews ++
  dumpField "featured" Value.vBool u.featured ++
  dumpField "affiliateLink" Value.vStr u.affiliateLink

/-- Serialization of a product into the document the handlers insert
(`model_dump()` with the two datetimes serialized, `server.py` lines 110-112). -/
def toDoc (p : Product) : Doc :=
  [("id", Value.vStr p.id),
   ("name", Value.vStr p.name),
   ("category", Value.vStr p.category),
   ("price", Value.vNum p.price),
   ("image", Value.vStr p.image),
   ("description", Value.vStr p.description),
   ("specs", Value.vStrList p.specs),
   ("rating", Value.vNum p.rating),
   ("reviews", Value.vInt p.reviews),
   ("featured", Value.vBool p.featured),
   ("affiliateLink", Value.vStr p.affiliateLink),
   ("createdAt", Value.vTime p.createdAt),
   ("updatedAt", Value.vTime p.updatedAt)]

/-- Reads a string-typed field. -/
def asStr : Option Value → Option String
  | some (Value.vStr s) => some s
  | _ => none

/-- Reads a float-typed field. -/
def asNum : Option Value → Option ℚ
  | some (Value.vNum q) => some q
  | _ => none

/-- Reads an int-typed field. -/
def asInt : Option Value → Option Int
  | some (Value.vInt n) => some n
  | _ => none

/-- Reads a bool-typed field. -/
def asBool : Option Value → Option Bool
  | some (Value.vBool b) => some b
  | _ => none

/-- Reads a list-of-strings field. -/
def asStrList : Option Value → Option (List String)
  | some (Value.vStrList l) => some l
  | _ => none

/-- Reads a timestamp field. -/
def asTime : Option Value → Option Int
  | some (Value.vTime t) => some t
  | _ => none

/-- Pydantic validation `Product(**doc)`: every field must be present with a
value of the declared type (extra fields are ignored, matching the pydantic
default); `none` models a `ValidationError`. -/
def docToProduct (d : Doc) : Option Product := do
  let i ← asStr (getKey d "id")
  let n ← asStr (getKey d "name")
  let c ← asStr (getKey d "category")
  let pr ← asNum (getKey d "price")
  let im ← asStr (getKey d "image")
  let ds ← asStr (getKey d "description")
  let sp ← asStrList (getKey d "specs")
  let ra ← asNum (getKey d "rating")
  let rv ← asInt (getKey d "reviews")
  let ft ← asBool (getKey d "featured")
  let al ← asStr (getKey d "affiliateLink")
  let ca ← asTime (getKey d "createdAt")
  let ua ← asTime (getKey d "updatedAt")
  pure ⟨i, n, c, pr, im, ds, sp, ra, rv, ft, al, ca, ua⟩

/-- Whether a document matches the query `{"id": pid}`. -/
def docMatches (d : Doc) (pid : String) : Bool :=
  getKey d "id" == some (Value.vStr pid)

/-- MongoDB `find_one({"id": pid})`: the first matching document. -/
def findOne (store : List Doc) (pid : String) : Option Doc :=
  store.find? (fun d => docMatches d pid)

/-- MongoDB `update_one({"id": pid}, {"$set": upd})`: applies the `$set`
document to the first matching document, leaving the rest untouched. -/
def updateOne : List Doc → String → List (String × Value) → List Doc
  | [], _, _ => []
  | d :: rest, pid, upd =>
    if docMatches d pid then applySet d upd :: rest
    else d :: updateOne rest pid upd

/-- MongoDB `delete_one({"id": pid})`: removes the first matching document;
`none` models `deleted_count == 0`. -/
def deleteOne : List Doc → String → Option (List Doc)
  | [], _ => none
  | d :: rest, pid =>
    if docMatches d pid then some rest
    else (deleteOne rest pid).map (fun l => d :: l)

/-- Error raised by the product routes when no document matches the id. -/
def notFoundErr : HErr := { status := 404, detail := "Producto no encontrado" }

/-- Generic 500 produced when an uncaught `ValidationError` escapes a handler
or the response fails `response_model` validation. -/
def validationErr : HErr := { status := 500, detail := "Internal Server Error" }

/-- Source: `server.py`, `get_products`: `db.products.find({}).to_list(1000)`
returns at most the first 1000 documents of the collection. -/
def get_products (store : List Doc) : List Doc :=
  store.take 1000

/-- Source: `server.py`, `get_product`: `find_one` by id, 404 when absent,
otherwise the document is returned and validated against `Product`. -/
def get_product (store : List Doc) (pid : String) : Except HErr Product :=
  match findOne store pid with
  | none => .error notFoundErr
  | some d =>
    match docToProduct d with
    | some p => .ok p
    | none => .error validationErr

/-- Source: `server.py`, `create_product`: after the `verify_token`
dependency succeeds, builds `Product(**product.model_dump())` (the id and the
two timestamps come from the server: `newId` is the freshly generated uuid,
both datetime default factories run at the current instant `now`), inserts
its document and returns the entity.  On auth failure the handler body never
runs and the store is untouched. -/
def create_product (pc : ProductCreate) (cred : Option TokenString)
    (secret : String) (now : Int) (newId : String) (store : List Doc) :
    Except HErr Product × List Doc :=
  match authenticate cred secret now with
  | .error e => (.error e, store)
  | .ok _ =>
    let p : Product :=
      { id := newId
        name := pc.name
        category := pc.category
        price := pc.price
        image := pc.image
        description := pc.description
        specs := pc.specs
        rating := pc.rating
        reviews := pc.reviews
        featured := pc.featured
        affiliateLink := pc.affiliateLink
        createdAt := now
        updatedAt := now }
    (.ok p, store ++ [toDoc p])

/-- Source: `server.py`, `update_product`: after auth, `find_one` by id (404
when absent), `$set` of `model_dump(exclude_unset=True)` plus a refreshed
`updatedAt`, re-read of the document and `Product(**updated_product)`
validation of the response. -/
def update_product (pid : String) (pu : ProductUpdate)
    (cred : Option TokenString) (secret : String) (now : Int)
    (store : List Doc) : Except HErr Product × List Doc :=
  match authenticate cred secret now with
  | .error e => (.error e, store)
  | .ok _ =>
    match findOne store pid with
    | none => (.error notFoundErr, store)
    | some _ =>
      let upd := pu.dump ++ [("updatedAt", Value.vTime now)]
      let store2 := updateOne store pid upd
      match findOne store2 pid with
      | none => (.error validationErr, store2)
      | some d =>
        match docToProduct d with
        | some p => (.ok p, store2)
        | none => (.error validationErr, store2)

/-- Source: `server.py`, `delete_product`: after auth, `delete_one` by id;
404 when `deleted_count == 0`, otherwise a confirmation message. -/
def delete_product (pid : String) (cred : Option TokenString) (secret : String)
    (now : Int) (store : List Doc) : Except HErr String × List Doc :=
  match authenticate cred secret now with
  | .error e => (.error e, store)
  | .ok _ =>
    match deleteOne store pid with
    | none => (.error notFoundErr, store)
    | some store2 => (.ok "Producto eliminado exitosamente", store2)

/-- Source: `server.py`, `verify_admin`: after auth, returns
`{"valid": True, "username": username}`. -/
def verify_admin (cred : Option TokenString) (secret : String) (now : Int) :
    Except HErr (Bool × String) :=
  match authenticate cred secret now with
  | .error e => .error e
  | .ok username => .ok (true, username)

/-- Source: `server.py`, `admin_login`: checks the credentials (401 on
failure) and issues a 24-hour token for the username. -/
def admin_login (cfg : AdminConfig) (username password : String) (now : Int) :
    Except HErr (Token × String) :=
  if verify_admin_credentials cfg username password then
    .ok (create_access_token username now (some (24 * 3600)) cfg.secretKey, username)
  else
    .error { status := 401, detail := "Credenciales incorrectas" }

/-! ## Helper lemmas about documents and the store -/

/-- Applying an empty `$set` document changes nothing. -/
theorem applySet_nil (d : Doc) : applySet d [] = d := rfl

/-- Applying a `$set` document field by field. -/
theorem applySet_cons (d : Doc) (kv : String × Value)
    (rest : List (String × Value)) :
    applySet d (kv :: rest) = applySet (setKey d kv.1 kv.2) rest := rfl

/-- A concatenated `$set` document applies in two stages. -/
theorem applySet_append (d : Doc) (a b : List (String × Value)) :
    applySet d (a ++ b) = applySet (applySet d a) b := by
  simp [applySet, List.foldl_append]

/-- A one-field `$set` document is a single `setKey`. -/
theorem applySet_singleton (d : Doc) (k : String) (v : Value) :
    applySet d [(k, v)] = setKey d k v := rfl

/-- Setting one field does not disturb a different field. -/
theorem getKey_setKey_ne (d : Doc) (k key : String) (v : Value) (h : key ≠ k) :
    getKey (setKey d k v) key = getKey d key := by
  induction d with
  | nil =>
    simp [setKey, getKey, Ne.symm h]
  | cons hd tl ih =>
    obtain ⟨k2, w⟩ := hd
    by_cases hk : k2 = k
    · subst hk
      simp [setKey, getKey, Ne.symm h]
    · by_cases hk2 : k2 = key
      · simp [setKey, getKey, hk, hk2, h]
      · simp [setKey, getKey, hk, hk2, ih]

/-- Setting a field stores exactly that value under the key. -/
theorem getKey_setKey_self (d : Doc) (k : String) (v : Value) :
    getKey (setKey d k v) k = some v := by
  induction d with
  | nil => simp [setKey, getKey]
  | cons hd tl ih =>
    obtain ⟨k2, w⟩ := hd
    by_cases hk : k2 = k
    · subst hk; simp [setKey, getKey]
    · simp [setKey, getKey, hk, ih]

/-- An unset dump field is the empty update. -/
theorem dumpField_none {α : Type} (key : String) (enc : α → Value) :
    dumpField key enc none = [] := rfl

/-- A dump field set to null updates the field to `null`. -/
theorem dumpField_some_none {α : Type} (key : String) (enc : α → Value) :
    dumpField key enc (some none) = [(key, Value.vNull)] := rfl

/-- A dump field set to a value updates the field to its encoding. -/
theorem dumpField_some_some {α : Type} (key : String) (enc : α → Value)
    (v : α) : dumpField key enc (some (some v)) = [(key, enc v)] := rfl

/-- Applying the dump of one pydantic field never disturbs a key with a
different name, whether the field was unset, null, or set. -/
theorem getKey_applySet_dumpField {α : Type} (d : Doc) (key fkey : String)
    (enc : α → Value) (o : Option (Option α)) (h : key ≠ fkey) :
    getKey (applySet d (dumpField fkey enc o)) key = getKey d key := by
  rcases o with _ | ⟨_ | v⟩
  · rfl
  · exact getKey_setKey_ne d fkey key Value.vNull h
  · exact getKey_setKey_ne d fkey key (enc v) h

/-- The update document built by `update_product` never mentions the `id`
field: `ProductUpdate` has no `id` member and the only extra field is
`updatedAt`. -/
theorem getKey_applySet_upd_id (pu : ProductUpdate) (d : Doc) (now : Int) :
    getKey (applySet d (pu.dump ++ [("updatedAt", Value.vTime now)])) "id"
      = getKey d "id" := by
  simp only [ProductUpdate.dump, applySet_append, applySet_singleton]
  rw [getKey_setKey_ne, getKey_applySet_dumpField, getKey_applySet_dumpField,
    getKey_applySet_dumpField, getKey_applySet_dumpField,
    getKey_applySet_dumpField, getKey_applySet_dumpField,
    getKey_applySet_dumpField, getKey_applySet_dumpField,
    getKey_applySet_dumpField, getKey_applySet_dumpField]
  all_goals decide

/-- If `find_one` returns a document and the `$set` document preserves its
`id` field, then after `update_one` the same query returns exactly the
updated document. -/
theorem findOne_updateOne (store : List Doc) (pid : String)
    (upd : List (String × Value)) (d : Doc) (h : findOne store pid = some d)
    (hid : getKey (applySet d upd) "id" = getKey d "id") :
    findOne (updateOne store pid upd) pid = some (applySet d upd) := by
  induction store with
  | nil => simp [findOne] at h
  | cons hd tl ih =>
    cases hm : docMatches hd pid with
    | false =>
      have h2 : findOne tl pid = some d := by
        simpa [findOne, List.find?, hm] using h
      simpa [updateOne, hm, findOne, List.find?] using ih h2
    | true =>
      have hd_eq : hd = d := by
        have h3 := h
        simp [findOne, List.find?, hm] at h3
        exact h3
      subst hd_eq
      have hm2 : docMatches (applySet hd upd) pid = true := by
        simp only [docMatches, beq_iff_eq] at hm ⊢
        rw [hid]
        exact hm
      simp [updateOne, hm, findOne, List.find?, hm2]

/-- `delete_one` reports a zero deleted count exactly when `find_one` finds
nothing. -/
theorem deleteOne_eq_none_iff (store : List Doc) (pid : String) :
    deleteOne store pid = none ↔ findOne store pid = none := by
  induction store with
  | nil => simp [deleteOne, findOne]
  | cons hd tl ih =>
    cases hm : docMatches hd pid with
    | false => simp [deleteOne, findOne, List.find?, hm, ih]
    | true => simp [deleteOne, findOne, List.find?, hm]

/-- Every error produced by `verify_token` carries HTTP status 403. -/
theorem verify_token_error_status (ts : TokenString) (secret : String)
    (now : Int) (e : HErr) (h : verify_token ts secret now = .error e) :
    e.status = 403 := by
  unfold verify_token at h
  split at h
  · split at h
    · exact absurd h (by simp)
    · cases Except.error.inj h; rfl
  · cases Except.error.inj h; rfl
  · cases Except.error.inj h; rfl

/-- Every error produced by the auth gate carries HTTP status 403. -/
theorem authenticate_error_status (cred : Option TokenString) (secret : String)
    (now : Int) (e : HErr) (h : authenticate cred secret now = .error e) :
    e.status = 403 := by
  cases cred with
  | none =>
    have h2 : notAuthenticatedErr = e := Except.error.inj h
    rw [← h2]
    rfl
  | some ts => exact verify_token_error_status ts secret now e h

/-- After a successful auth and a successful `find_one`, the store leaving
`update_product` is exactly `update_one` of the `$set` document. -/
theorem update_product_store (pid : String) (pu : ProductUpdate)
    (cred : Option TokenString) (secret : String) (now : Int)
    (store : List Doc) (u : String) (d : Doc)
    (hauth : authenticate cred secret now = .ok u)
    (hfind : findOne store pid = some d) :
    (update_product pid pu cred secret now store).2
      = updateOne store pid (pu.dump ++ [("updatedAt", Value.vTime now)]) := by
  simp only [update_product, hauth, hfind]
  split
  · rfl
  · split <;> rfl

/-! ## Concrete fixtures used by witnesses and counterexamples -/

/-- A concrete product used by witnesses, with the price 9.99 of the
specification scenario. -/
def sampleProduct : Product :=
  { id := "p1"
    name := "X"
    category := "Electrónica"
    price := 999/100
    image := "u"
    description := "d"
    specs := ["a"]
    rating := 4.5
    reviews := 0
    featured := false
    affiliateLink := "l"
    createdAt := 100
    updatedAt := 100 }

/-- Claims of a token that verifies under the secret `"secret"` until
instant 1000. -/
def goodPayload : Payload := { sub := some "admin", exp := 1000 }

/-- A token that verifies under the secret `"secret"` until instant 1000. -/
def goodToken : Token := { payload := goodPayload, sig := (goodPayload, "secret") }

/-- Claims of a token with no subject. -/
def noSubPayload : Payload := { sub := none, exp := 1000 }

/-- A well-signed token whose payload has no subject claim. -/
def noSubToken : Token := { payload := noSubPayload, sig := (noSubPayload, "secret") }

/-- Claims of a token that is both expired and signed under another secret. -/
def badSigPayload : Payload := { sub := some "admin", exp := 0 }

/-- A token signed under the secret `"other"`, with an expiration already in
the past at instant 10. -/
def badSigToken : Token := { payload := badSigPayload, sig := (badSigPayload, "other") }

/-! ## Claim theorems -/

/-- C1: a token produced by `create_access_token` for subject `s` with ttl
`d` and verified under the same secret returns `s` while the current time is
before `issue time + d`, and fails with the 403 Token expirado error once
`d` has elapsed. -/
theorem c1_issue_verify (s : String) (d : Int) (secret : String)
    (t0 now : Int) :
    (now < t0 + d →
      verify_token (.jwt (create_access_token s t0 (some d) secret)) secret now
        = .ok s) ∧
    (t0 + d ≤ now →
      verify_token (.jwt (create_access_token s t0 (some d) secret)) secret now
        = .error tokenExpiredErr) := by
  constructor
  · intro h
    have hx : ¬ ((t0 + d : Int) ≤ now) := by omega
    simp [verify_token, jwtDecode, create_access_token, hx]
  · intro h
    simp [verify_token, jwtDecode, create_access_token, h]

/-- Witness for C1 at subject `admin`, ttl 86400 seconds, issue time 0,
checked at instants 0 and 86400. -/
theorem c1_issue_verify_witness :
    verify_token (.jwt (create_access_token "admin" 0 (some 86400) "secret"))
        "secret" 0 = .ok "admin" ∧
    verify_token (.jwt (create_access_token "admin" 0 (some 86400) "secret"))
        "secret" 86400 = .error tokenExpiredErr :=
  ⟨(c1_issue_verify "admin" 86400 "secret" 0 0).1 (by omega),
   (c1_issue_verify "admin" 86400 "secret" 0 86400).2 (by omega)⟩

/-- C2: on any auth-gate failure (missing bearer credentials, invalid token
or expired token) every protected route returns that 403 error and leaves
the product store exactly as it was; the handler bodies never run. -/
theorem c2_protected_routes_guarded (cred : Option TokenString)
    (secret : String) (now : Int) (store : List Doc) (pc : ProductCreate)
    (pu : ProductUpdate) (pid newId : String) (e : HErr)
    (h : authenticate cred secret now = .error e) :
    e.status = 403 ∧
    create_product pc cred secret now newId store = (.error e, store) ∧
    update_product pid pu cred secret now store = (.error e, store) ∧
    delete_product pid cred secret now store = (.error e, store) ∧
    verify_admin cred secret now = .error e := by
  refine ⟨authenticate_error_status cred secret now e h, ?_, ?_, ?_, ?_⟩
  · simp [create_product, h]
  · simp [update_product, h]
  · simp [delete_product, h]
  · simp [verify_admin, h]

/-- Sample creation body used by witnesses. -/
def samplePC : ProductCreate :=
  { name := "X"
    category := "Electrónica"
    price := 999/100
    image := "u"
    description := "d"
    specs := []
    rating := 4.5
    reviews := 0
    featured := false
    affiliateLink := "l" }

/-- Witness for C2: a request with no bearer credentials is rejected by
every protected route with the 403 Not authenticated error and the store is
untouched. -/
theorem c2_protected_routes_guarded_witness :
    notAuthenticatedErr.status = 403 ∧
    create_product samplePC none "secret" 0 "id1" [] =
      (.error notAuthenticatedErr, []) ∧
    update_product "p1" {} none "secret" 0 [] = (.error notAuthenticatedErr, []) ∧
    delete_product "p1" none "secret" 0 [] = (.error notAuthenticatedErr, []) ∧
    verify_admin none "secret" 0 = .error notAuthenticatedErr :=
  c2_protected_routes_guarded none "secret" 0 [] samplePC {} "p1" "id1"
    notAuthenticatedErr rfl

/-- C3 counterexample: the claim as stated requires `verify` to fail with
`TokenExpired` whenever the current time is at or past the embedded
expiration, but a token signed under a different secret whose expiration has
already passed fails with `TokenInvalid`: the signature check precedes the
expiration check. -/
theorem c3_expired_badsig_counterexample :
    badSigToken.payload.exp ≤ 10 ∧
    verify_token (.jwt badSigToken) "secret" 10 = .error tokenInvalidErr ∧
    verify_token (.jwt badSigToken) "secret" 10 ≠ .error tokenExpiredErr := by
  refine ⟨by norm_num [badSigToken, badSigPayload], rfl, ?_⟩
  intro hc
  have hc2 : Except.error (α := String) tokenInvalidErr
      = Except.error tokenExpiredErr := hc
  have h3 : tokenInvalidErr = tokenExpiredErr := Except.error.inj hc2
  exact absurd h3 (by decide)

/-- C3 amended: `verify` checks the signature first, then the expiration,
then the subject.  It fails with 403 Token expirado when the signature
verifies and the current time is at or past the embedded expiration; it
fails with 403 Token inválido when the payload is malformed, when the
signature does not verify (wrong secret or tampered payload), or when a
well-signed unexpired payload has no subject; every verification error is a
403. -/
theorem c3_verify_error_taxonomy (t : Token) (secret : String) (now : Int) :
    (t.sig = (t.payload, secret) → t.payload.exp ≤ now →
      verify_token (.jwt t) secret now = .error tokenExpiredErr) ∧
    (t.sig ≠ (t.payload, secret) →
      verify_token (.jwt t) secret now = .error tokenInvalidErr) ∧
    (verify_token .malformed secret now = .error tokenInvalidErr) ∧
    (t.sig = (t.payload, secret) → now < t.payload.exp → t.payload.sub = none →
      verify_token (.jwt t) secret now = .error tokenInvalidErr) ∧
    (∀ e : HErr, verify_token (.jwt t) secret now = .error e →
      e.status = 403) := by
  refine ⟨?_, ?_, rfl, ?_, ?_⟩
  · intro hs he
    simp [verify_token, jwtDecode, hs, he]
  · intro hs
    simp [verify_token, jwtDecode, hs]
  · intro hs hlt hsub
    have hx : ¬ (t.payload.exp ≤ now) := by omega
    simp [verify_token, jwtDecode, hs, hx, hsub]
  · intro e he
    exact verify_token_error_status (.jwt t) secret now e he

/-- Witness for C3 amended: a well-signed token at its expiration instant is
expired; a wrongly signed token is invalid; a well-signed unexpired token
without subject is invalid; the expired error carries status 403. -/
theorem c3_verify_error_taxonomy_witness :
    verify_token (.jwt goodToken) "secret" 1000 = .error tokenExpiredErr ∧
    verify_token (.jwt badSigToken) "secret" 10 = .error tokenInvalidErr ∧
    verify_token (.jwt noSubToken) "secret" 0 = .error tokenInvalidErr ∧
    tokenExpiredErr.status = 403 :=
  ⟨(c3_verify_error_taxonomy goodToken "secret" 1000).1 rfl (by decide),
   (c3_verify_error_taxonomy badSigToken "secret" 10).2.1 (by decide),
   (c3_verify_error_taxonomy noSubToken "secret" 0).2.2.2.1 rfl (by decide) rfl,
   (c3_verify_error_taxonomy goodToken "secret" 1000).2.2.2.2 tokenExpiredErr
     ((c3_verify_error_taxonomy goodToken "secret" 1000).1 rfl (by decide))⟩

/-- C4: the credential check accepts exactly the configured admin username
together with the configured admin password, and rejects every other pair. -/
theorem c4_credential_check_iff (cfg : AdminConfig) (u p : String) :
    verify_admin_credentials cfg u p = true ↔
      (u = cfg.adminUsername ∧ p = cfg.adminPassword) := by
  simp [verify_admin_credentials]

/-- The partial update body `{price: q}`: only the price field is set. -/
def priceOnly (q : ℚ) : ProductUpdate := { price := some (some q) }

/-- C5: updating an existing product with a body that provides only the
price replaces the price, refreshes `updatedAt` to the current instant, and
returns a product identical to the stored one in every other field (id,
name, category, image, description, specs, rating, reviews, featured,
affiliateLink, createdAt); the store change is exactly the corresponding
`update_one`. -/
theorem c5_price_update_frame (p : Product) (q : ℚ)
    (cred : Option TokenString) (secret : String) (now : Int)
    (store : List Doc) (pid : String) (u : String)
    (hauth : authenticate cred secret now = .ok u)
    (hfind : findOne store pid = some (toDoc p)) :
    update_product pid (priceOnly q) cred secret now store
      = (.ok { p with price := q, updatedAt := now },
         updateOne store pid
           [("price", Value.vNum q), ("updatedAt", Value.vTime now)]) := by
  have hupd : (priceOnly q).dump ++ [("updatedAt", Value.vTime now)]
      = [("price", Value.vNum q), ("updatedAt", Value.vTime now)] := rfl
  have happ : applySet (toDoc p)
        [("price", Value.vNum q), ("updatedAt", Value.vTime now)]
      = toDoc { p with price := q, updatedAt := now } := rfl
  have hf2 : findOne (updateOne store pid
        [("price", Value.vNum q), ("updatedAt", Value.vTime now)]) pid
      = some (toDoc { p with price := q, updatedAt := now }) := by
    have h3 := findOne_updateOne store pid
      [("price", Value.vNum q), ("updatedAt", Value.vTime now)]
      (toDoc p) hfind rfl
    rw [happ] at h3
    exact h3
  simp only [update_product, hauth, hfind, hupd, hf2]
  rfl

/-- Witness for C5: setting the price of the sample product to 10 at
instant 500 under a valid token. -/
theorem c5_price_update_frame_witness :
    update_product "p1" (priceOnly 10) (some (.jwt goodToken)) "secret" 500
        [toDoc sampleProduct]
      = (.ok { sampleProduct with price := 10, updatedAt := 500 },
         updateOne [toDoc sampleProduct] "p1"
           [("price", Value.vNum 10), ("updatedAt", Value.vTime 500)]) :=
  c5_price_update_frame sampleProduct 10 (some (.jwt goodToken)) "secret" 500
    [toDoc sampleProduct] "p1" "admin" rfl rfl

/-- C6: creation under a valid token returns a product whose id is the
freshly generated server-side uuid (the request body has no id field),
whose `createdAt` and `updatedAt` both equal the creation instant, and
whose rating, reviews and featured flag take the defaults 4.5, 0 and false
when the body leaves them unspecified; the document of exactly this product
is appended to the store and the full entity is returned. -/
theorem c6_create_defaults (inp : ProductCreateInput)
    (cred : Option TokenString) (secret : String) (now : Int)
    (newId : String) (store : List Doc) (u : String)
    (hauth : authenticate cred secret now = .ok u)
    (hr : inp.rating = none) (hv : inp.reviews = none)
    (hf : inp.featured = none) :
    create_product (parseProductCreate inp) cred secret now newId store
      = (.ok { id := newId
               name := inp.name
               category := inp.category
               price := inp.price
               image := inp.image
               description := inp.description
               specs := inp.specs.getD []
               rating := 4.5
               reviews := 0
               featured := false
               affiliateLink := inp.affiliateLink
               createdAt := now
               updatedAt := now },
         store ++ [toDoc { id := newId
                           name := inp.name
                           category := inp.category
                           price := inp.price
                           image := inp.image
                           description := inp.description
                           specs := inp.specs.getD []
                           rating := 4.5
                           reviews := 0
                           featured := false
                           affiliateLink := inp.affiliateLink
                           createdAt := now
                           updatedAt := now }]) := by
  simp [create_product, hauth, parseProductCreate, hr, hv, hf]

/-- Sample creation body leaving specs, rating, reviews and featured
unspecified. -/
def sampleInput : ProductCreateInput :=
  { name := "X"
    category := "Electrónica"
    price := 999/100
    image := "u"
    description := "d"
    specs := none
    rating := none
    reviews := none
    featured := none
    affiliateLink := "l" }

/-- Witness for C6: the specification scenario body, created at instant 0
with the generated id `id1`, yields rating 4.5, reviews 0, featured false. -/
theorem c6_create_defaults_witness :
    create_product (parseProductCreate sampleInput) (some (.jwt goodToken))
        "secret" 0 "id1" []
      = (.ok { id := "id1"
               name := "X"
               category := "Electrónica"
               price := 999/100
               image := "u"
               description := "d"
               specs := []
               rating := 4.5
               reviews := 0
               featured := false
               affiliateLink := "l"
               createdAt := 0
               updatedAt := 0 },
         [] ++ [toDoc { id := "id1"
                        name := "X"
                        category := "Electrónica"
                        price := 999/100
                        image := "u"
                        description := "d"
                        specs := []
                        rating := 4.5
                        reviews := 0
                        featured := false
                        affiliateLink := "l"
                        createdAt := 0
                        updatedAt := 0 }]) :=
  c6_create_defaults sampleInput (some (.jwt goodToken)) "secret" 0 "id1" []
    "admin" rfl rfl rfl rfl

/-- C7: under a valid token, each of the three id-addressed routes fails
with the 404 Producto no encontrado error exactly when no document in the
store matches the id, and on that failure the store is returned unchanged. -/
theorem c7_notfound_iff (pid : String) (store : List Doc)
    (cred : Option TokenString) (secret : String) (now : Int)
    (pu : ProductUpdate) (u : String)
    (hauth : authenticate cred secret now = .ok u) :
    (get_product store pid = .error notFoundErr ↔ findOne store pid = none) ∧
    ((update_product pid pu cred secret now store).1 = .error notFoundErr ↔
      findOne store pid = none) ∧
    ((delete_product pid cred secret now store).1 = .error notFoundErr ↔
      findOne store pid = none) ∧
    (findOne store pid = none →
      (update_product pid pu cred secret now store).2 = store ∧
      (delete_product pid cred secret now store).2 = store) := by
  have hdel : deleteOne store pid = none ↔ findOne store pid = none :=
    deleteOne_eq_none_iff store pid
  refine ⟨?_, ?_, ?_, ?_⟩
  · constructor
    · intro h
      cases hfx : findOne store pid with
      | none => rfl
      | some d =>
        exfalso
        simp only [get_product, hfx] at h
        cases hdx : docToProduct d <;> rw [hdx] at h <;>
          simp [notFoundErr, validationErr] at h
    · intro h
      simp [get_product, h]
  · constructor
    · intro h
      cases hfx : findOne store pid with
      | none => rfl
      | some d =>
        exfalso
        have hst := update_product_store pid pu cred secret now store u d
          hauth hfx
        simp only [update_product, hauth, hfx] at h
        split at h
        · simp [notFoundErr, validationErr] at h
        · split at h
          · simp at h
          · simp [notFoundErr, validationErr] at h
    · intro h
      simp [update_product, hauth, h]
  · constructor
    · intro h
      cases hdx : deleteOne store pid with
      | none => exact hdel.mp hdx
      | some s2 =>
        exfalso
        simp [delete_product, hauth, hdx] at h
    · intro h
      simp [delete_product, hauth, hdel.mpr h]
  · intro h
    constructor
    · simp [update_product, hauth, h]
    · simp [delete_product, hauth, hdel.mpr h]

/-- Witness for C7 at an id absent from a one-product store. -/
theorem c7_notfound_iff_witness :
    (get_product [toDoc sampleProduct] "zzz" = .error notFoundErr ↔
      findOne [toDoc sampleProduct] "zzz" = none) ∧
    ((update_product "zzz" {} (some (.jwt goodToken)) "secret" 500
        [toDoc sampleProduct]).1 = .error notFoundErr ↔
      findOne [toDoc sampleProduct] "zzz" = none) ∧
    ((delete_product "zzz" (some (.jwt goodToken)) "secret" 500
        [toDoc sampleProduct]).1 = .error notFoundErr ↔
      findOne [toDoc sampleProduct] "zzz" = none) ∧
    (findOne [toDoc sampleProduct] "zzz" = none →
      (update_product "zzz" {} (some (.jwt goodToken)) "secret" 500
        [toDoc sampleProduct]).2 = [toDoc sampleProduct] ∧
      (delete_product "zzz" (some (.jwt goodToken)) "secret" 500
        [toDoc sampleProduct]).2 = [toDoc sampleProduct]) :=
  c7_notfound_iff "zzz" [toDoc sampleProduct] (some (.jwt goodToken))
    "secret" 500 {} "admin" rfl

/-- A numbered copy of the sample product document, used to overflow the
1000-document cap of the list route. -/
def mkNumberedDoc (i : Nat) : Doc :=
  toDoc { sampleProduct with reviews := (i : Int) }

/-- A store holding 1001 pairwise distinct product documents. -/
def bigStore : List Doc := (List.range 1001).map mkNumberedDoc

/-- C8 counterexample: the claim says `list()` returns every product with no
cap, but `get_products` calls `to_list(1000)`: on a store of 1001 products
the 1001st document is in the store and absent from the response. -/
theorem c8_list_cap_counterexample :
    mkNumberedDoc 1000 ∈ bigStore ∧
    mkNumberedDoc 1000 ∉ get_products bigStore := by
  constructor
  · exact List.mem_map_of_mem _ (List.mem_range.mpr (by norm_num))
  · intro hmem
    rw [get_products, bigStore, ← List.map_take, List.take_range] at hmem
    rw [show (1000 : ℕ) ⊓ 1001 = 1000 from by norm_num] at hmem
    obtain ⟨i, hi, heq⟩ := List.mem_map.mp hmem
    have h2 : getKey (mkNumberedDoc i) "reviews"
        = getKey (mkNumberedDoc 1000) "reviews" := by rw [heq]
    have h3 : some (Value.vInt (i : Int))
        = some (Value.vInt ((1000 : Nat) : Int)) := h2
    have h4 : (i : Int) = ((1000 : Nat) : Int) :=
      Value.vInt.inj (Option.some.inj h3)
    have h5 : i = 1000 := by exact_mod_cast h4
    have h6 : i < 1000 := List.mem_range.mp hi
    omega

/-- C8 amended: `list()` returns the first `min(1000, n)` documents of the
store in its natural order; in particular, whenever the store holds at most
1000 products the response contains every product, with no pagination. -/
theorem c8_list_take (store : List Doc) :
    get_products store = store.take 1000 ∧
    (store.length ≤ 1000 → ∀ d ∈ store, d ∈ get_products store) := by
  refine ⟨rfl, fun h d hd => ?_⟩
  rw [get_products, List.take_of_length_le h]
  exact hd

/-- Witness for C8 amended: a one-product store is returned in full. -/
theorem c8_list_take_witness :
    toDoc sampleProduct ∈ get_products [toDoc sampleProduct] :=
  (c8_list_take [toDoc sampleProduct]).2 (by norm_num) (toDoc sampleProduct)
    (by simp)

/-- The partial update body `{name: "Y"}`. -/
def nameOnly : ProductUpdate := { name := some (some "Y") }

/-- C9: a successful `update_product` stores exactly the `$set`-updated
document under the same query, and that document carries the same `id`
field as before the call: `ProductUpdate` exposes no id member, so no
partial update can change a product id. -/
theorem c9_id_immutable (pid : String) (pu : ProductUpdate)
    (cred : Option TokenString) (secret : String) (now : Int)
    (store : List Doc) (u : String) (d : Doc)
    (hauth : authenticate cred secret now = .ok u)
    (hfind : findOne store pid = some d) :
    findOne (update_product pid pu cred secret now store).2 pid
      = some (applySet d (pu.dump ++ [("updatedAt", Value.vTime now)])) ∧
    getKey (applySet d (pu.dump ++ [("updatedAt", Value.vTime now)])) "id"
      = getKey d "id" := by
  have hid := getKey_applySet_upd_id pu d now
  refine ⟨?_, hid⟩
  rw [update_product_store pid pu cred secret now store u d hauth hfind]
  exact findOne_updateOne store pid _ d hfind hid

/-- Witness for C9: renaming the sample product keeps its stored id. -/
theorem c9_id_immutable_witness :
    findOne (update_product "p1" nameOnly (some (.jwt goodToken)) "secret"
        500 [toDoc sampleProduct]).2 "p1"
      = some (applySet (toDoc sampleProduct)
          (nameOnly.dump ++ [("updatedAt", Value.vTime 500)])) ∧
    getKey (applySet (toDoc sampleProduct)
        (nameOnly.dump ++ [("updatedAt", Value.vTime 500)])) "id"
      = getKey (toDoc sampleProduct) "id" :=
  c9_id_immutable "p1" nameOnly (some (.jwt goodToken)) "secret" 500
    [toDoc sampleProduct] "admin" (toDoc sampleProduct) rfl rfl

/-- The partial update body `{price: null}`: the price field is set to an
explicit null. -/
def nullPriceUpdate : ProductUpdate := { price := some none }

/-- The sample product document after the `$set` produced by the
`{price: null}` update. -/
def nullClobberedDoc : Doc :=
  applySet (toDoc sampleProduct)
    [("price", Value.vNull), ("updatedAt", Value.vTime 500)]

/-- C10 counterexample: the claim says a field supplied as explicit null is
treated like an omitted field and the stored value is never cleared, but
`model_dump(exclude_unset=True)` keeps a field that was explicitly set to
`None`: updating the sample product with `{price: null}` overwrites the
stored price 9.99 with null (and the response then fails `Product`
validation with a 500). -/
theorem c10_null_clears_counterexample :
    getKey (toDoc sampleProduct) "price" = some (Value.vNum (999/100)) ∧
    (update_product "p1" nullPriceUpdate (some (.jwt goodToken)) "secret" 500
        [toDoc sampleProduct]).2 = [nullClobberedDoc] ∧
    getKey nullClobberedDoc "price" = some Value.vNull ∧
    (update_product "p1" nullPriceUpdate (some (.jwt goodToken)) "secret" 500
        [toDoc sampleProduct]).1 = .error validationErr :=
  ⟨rfl, rfl, rfl, rfl⟩

/-- C10 amended: in an update of an existing product, a field the client
omitted is left unchanged in the store, but a field supplied as an explicit
null is included in the `$set` document and clears the stored field to
null; stated here for the price field. -/
theorem c10_null_vs_omitted (pid : String) (pu : ProductUpdate)
    (cred : Option TokenString) (secret : String) (now : Int)
    (store : List Doc) (u : String) (d : Doc)
    (hauth : authenticate cred secret now = .ok u)
    (hfind : findOne store pid = some d) :
    findOne (update_product pid pu cred secret now store).2 pid
      = some (applySet d (pu.dump ++ [("updatedAt", Value.vTime now)])) ∧
    (pu.price = none →
      getKey (applySet d (pu.dump ++ [("updatedAt", Value.vTime now)])) "price"
        = getKey d "price") ∧
    (pu.price = some none →
      getKey (applySet d (pu.dump ++ [("updatedAt", Value.vTime now)])) "price"
        = some Value.vNull) := by
  refine ⟨?_, ?_, ?_⟩
  · rw [update_product_store pid pu cred secret now store u d hauth hfind]
    exact findOne_updateOne store pid _ d hfind
      (getKey_applySet_upd_id pu d now)
  · intro hp
    simp only [ProductUpdate.dump, hp, dumpField_none, applySet_append,
      applySet_singleton, applySet_nil]
    rw [getKey_setKey_ne, getKey_applySet_dumpField,
      getKey_applySet_dumpField, getKey_applySet_dumpField,
      getKey_applySet_dumpField, getKey_applySet_dumpField,
      getKey_applySet_dumpField, getKey_applySet_dumpField,
      getKey_applySet_dumpField, getKey_applySet_dumpField]
    all_goals decide
  · intro hp
    simp only [ProductUpdate.dump, hp, dumpField_some_none, applySet_append,
      applySet_singleton]
    rw [getKey_setKey_ne, getKey_applySet_dumpField,
      getKey_applySet_dumpField, getKey_applySet_dumpField,
      getKey_applySet_dumpField, getKey_applySet_dumpField,
      getKey_applySet_dumpField, getKey_applySet_dumpField,
      getKey_setKey_self]
    all_goals decide

/-- Witness for C10 amended: updating the sample product with
`{price: null}` stores a null price, while the `{name: "Y"}` update leaves
the stored price untouched. -/
theorem c10_null_vs_omitted_witness :
    findOne (update_product "p1" nullPriceUpdate (some (.jwt goodToken))
        "secret" 500 [toDoc sampleProduct]).2 "p1"
      = some (applySet (toDoc sampleProduct)
          (nullPriceUpdate.dump ++ [("updatedAt", Value.vTime 500)])) ∧
    getKey (applySet (toDoc sampleProduct)
        (nullPriceUpdate.dump ++ [("updatedAt", Value.vTime 500)])) "price"
      = some Value.vNull ∧
    getKey (applySet (toDoc sampleProduct)
        (nameOnly.dump ++ [("updatedAt", Value.vTime 500)])) "price"
      = getKey (toDoc sampleProduct) "price" :=
  ⟨(c10_null_vs_omitted "p1" nullPriceUpdate (some (.jwt goodToken)) "secret"
      500 [toDoc sampleProduct] "admin" (toDoc sampleProduct) rfl rfl).1,
   (c10_null_vs_omitted "p1" nullPriceUpdate (some (.jwt goodToken)) "secret"
      500 [toDoc sampleProduct] "admin" (toDoc sampleProduct) rfl rfl).2.2 rfl,
   (c10_null_vs_omitted "p1" nameOnly (some (.jwt goodToken)) "secret"
      500 [toDoc sampleProduct] "admin" (toDoc sampleProduct) rfl rfl).2.1 rfl⟩

end Tienda
